import Mathlib

/-!
Verification of the `Status` value type of `media/base/status.h`
(shaka-packager), against its unit tests in
`src/media/base/status_unittest.cc`. The implementation file itself is not
part of the sources, so the definitions below are modelled from the
specification and constrained by the tests.
-/

namespace Media

/-- Modelled from the spec: the external error code enumeration `error::Code`
(declared in `media/base/status.h`, absent from the sources). The spec
requires at least `OK` (the distinguished success value) and `UNKNOWN`, plus
domain codes; the tests use `CANCELLED` and `UNIMPLEMENTED`. -/
inductive Code where
  | OK
  | UNKNOWN
  | CANCELLED
  | UNIMPLEMENTED
deriving DecidableEq

/-- Modelled from the spec: the enumeration's textual formatter (the stream
operator on `error::Code` used by `ToString`). The spec delegates the exact
text to the external enumeration, so we render the enumerator's name. -/
def Code.text : Code → String
  | .OK => "OK"
  | .UNKNOWN => "UNKNOWN"
  | .CANCELLED => "CANCELLED"
  | .UNIMPLEMENTED => "UNIMPLEMENTED"

/-- Modelled from the spec: `Status`, a value type holding an error code and a
human-readable message. -/
structure Status where
  error_code : Code
  error_message : String
deriving DecidableEq

/-- Modelled from the spec: default construction yields the OK state with an
empty message. -/
def Status.mkDefault : Status := ⟨Code.OK, ""⟩

/-- Modelled from the spec: construction from `(code, message)` — if
`code == OK` the message is discarded and the result is the OK state;
otherwise `code` and `message` are stored verbatim. -/
def Status.make (c : Code) (m : String) : Status :=
  if c = Code.OK then ⟨Code.OK, ""⟩ else ⟨c, m⟩

/-- Modelled from the spec: the named constant `Status::OK`, the canonical
successful value. -/
def Status.OKConst : Status := Status.make Code.OK ""

/-- Modelled from the spec: the named constant `Status::UNKNOWN`, the generic
failure value with an empty message. -/
def Status.UNKNOWNConst : Status := Status.make Code.UNKNOWN ""

/-- Modelled from the spec: `ok()` is true iff `error_code == OK`. -/
def Status.ok (s : Status) : Bool := s.error_code == Code.OK

/-- Modelled from the spec: `SetError(code, message)` — same normalization
rule as construction, overwriting any prior state. -/
def Status.SetError (_s : Status) (c : Code) (m : String) : Status :=
  if c = Code.OK then ⟨Code.OK, ""⟩ else ⟨c, m⟩

/-- Modelled from the spec: `Clear()` resets to the default state (OK, empty
message). -/
def Status.Clear (_s : Status) : Status := ⟨Code.OK, ""⟩

/-- Modelled from the spec: `Update(other)` absorbs `other` into `self` only
if `self` is currently OK; otherwise it is a no-op (sticky first failure). -/
def Status.Update (s other : Status) : Status :=
  if s.ok then other else s

/-- Modelled from the spec: `Swap(other)` exchanges the full state (code and
message) between the two statuses; the result pair is (new self, new other). -/
def Status.Swap (s other : Status) : Status × Status :=
  (⟨other.error_code, other.error_message⟩, ⟨s.error_code, s.error_message⟩)

/-- Modelled from the spec: `Matches(other)` is true iff the `error_code`
values are equal; message content is ignored. -/
def Status.Matches (a b : Status) : Bool := a.error_code == b.error_code

/-- Modelled from the spec: structural equality (`operator==`) — true iff
both `error_code` and `error_message` are equal. -/
def Status.beq (a b : Status) : Bool :=
  a.error_code == b.error_code && a.error_message == b.error_message

/-- Modelled from the spec: `ToString()` produces `"OK"` when `ok()`, and
otherwise the code's textual rendering, a single colon, and the raw stored
message, with no surrounding whitespace. -/
def Status.ToString (s : Status) : String :=
  if s.ok then "OK" else s.error_code.text ++ ":" ++ s.error_message

/-- Modelled from the spec: the external fatal-check facility `CHECK_OK`
(absent from the sources). Process termination is observable in the model as
the returned value: `none` means the process continues (no action), and
`some d` means the process terminates with diagnostic `d`, which contains the
status's text (hence its message) followed by the caller-supplied extra
context appended to the check. -/
def CHECK_OK (s : Status) (extra : String) : Option String :=
  if s.ok then none else some (s.ToString ++ extra)

/-- Reachability: the set of `Status` values producible via default
construction, `(code, message)` construction, `SetError`, `Clear`, `Update`,
`Swap`, or copy/assignment (which duplicate the value exactly). -/
inductive Reachable : Status → Prop where
  | mkDefault : Reachable Status.mkDefault
  | make (c : Code) (m : String) : Reachable (Status.make c m)
  | setError (s : Status) (c : Code) (m : String) : Reachable (s.SetError c m)
  | clear (s : Status) : Reachable s.Clear
  | update {s o : Status} : Reachable s → Reachable o → Reachable (s.Update o)
  | swapFst {s o : Status} : Reachable s → Reachable o → Reachable (s.Swap o).1
  | swapSnd {s o : Status} : Reachable s → Reachable o → Reachable (s.Swap o).2
  | copy {s : Status} : Reachable s → Reachable s

end Media

namespace Media

/-- C1: every reachable Status (default construction, `(code, message)`
construction, `SetError`, `Clear`, `Update`, `Swap`, copy/assignment) whose
`error_code` is OK has an empty `error_message` and `ok() = true`; and a
default-constructed Status has code OK and empty message. -/
theorem c1_ok_invariant (s : Status) (h : Reachable s) :
    (s.error_code = Code.OK → s.error_message = "" ∧ s.ok = true)
    ∧ (Status.mkDefault.error_code = Code.OK
        ∧ Status.mkDefault.error_message = "" ∧ Status.mkDefault.ok = true) := by
  refine ⟨?_, by decide⟩
  induction h with
  | mkDefault => intro _; exact ⟨rfl, rfl⟩
  | make c m =>
      intro hc
      unfold Status.make at hc ⊢
      by_cases hOK : c = Code.OK <;> simp [hOK, Status.ok] at hc ⊢
  | setError s c m =>
      intro hc
      unfold Status.SetError at hc ⊢
      by_cases hOK : c = Code.OK <;> simp [hOK, Status.ok] at hc ⊢
  | clear s => intro _; exact ⟨rfl, rfl⟩
  | @update sa oa hs ho ihs iho =>
      intro hc
      unfold Status.Update at hc ⊢
      by_cases hok : sa.ok = true
      · rw [if_pos hok] at hc ⊢
        exact iho hc
      · rw [if_neg hok] at hc ⊢
        exact ihs hc
  | swapFst hs ho ihs iho =>
      intro hc
      unfold Status.Swap at hc ⊢
      exact iho hc
  | swapSnd hs ho ihs iho =>
      intro hc
      unfold Status.Swap at hc ⊢
      exact ihs hc
  | copy hs ih => exact ih

/-- Witness for C1 at a concrete reachable input. -/
theorem c1_ok_invariant_witness :
    (Status.make Code.OK "msg").error_message = ""
    ∧ (Status.make Code.OK "msg").ok = true :=
  (c1_ok_invariant (Status.make Code.OK "msg")
    (Reachable.make Code.OK "msg")).1 (by decide)

/-- C2: if `s.ok()` then `s.Update(other)` equals `other`'s state; if not,
`Update` leaves `s`'s code and message unchanged for every `other`. -/
theorem c2_update_sticky (s o : Status) :
    (s.ok = true → s.Update o = o)
    ∧ (s.ok = false → (s.Update o).error_code = s.error_code
        ∧ (s.Update o).error_message = s.error_message) := by
  unfold Status.Update
  constructor
  · intro h; simp [h]
  · intro h; simp [h]

/-- Witness for C2 at concrete inputs. -/
theorem c2_update_sticky_witness :
    ((Status.make Code.CANCELLED "message").Update
        (Status.make Code.UNIMPLEMENTED "other message")).error_code
      = Code.CANCELLED
    ∧ ((Status.make Code.CANCELLED "message").Update
        (Status.make Code.UNIMPLEMENTED "other message")).error_message
      = "message" :=
  (c2_update_sticky (Status.make Code.CANCELLED "message")
    (Status.make Code.UNIMPLEMENTED "other message")).2 (by decide)

/-- C3: constructing `Status(c, m)` or calling `SetError(c, m)` with
`c = OK` yields the OK state with the message discarded, regardless of `m`;
with `c ≠ OK` both store exactly `c` and exactly `m`, overwriting any prior
state. -/
theorem c3_construct_set_error (c : Code) (m : String) (s : Status) :
    (c = Code.OK →
      Status.make c m = Status.mkDefault ∧ s.SetError c m = Status.mkDefault)
    ∧ (c ≠ Code.OK →
      (Status.make c m).error_code = c ∧ (Status.make c m).error_message = m
      ∧ (s.SetError c m).error_code = c ∧ (s.SetError c m).error_message = m) := by
  constructor
  · intro h
    simp [Status.make, Status.SetError, Status.mkDefault, h]
  · intro h
    simp [Status.make, Status.SetError, h]

/-- Witness for C3 at concrete inputs. -/
theorem c3_construct_set_error_witness :
    Status.make Code.OK "msg" = Status.mkDefault
    ∧ (Status.make Code.CANCELLED "old").SetError Code.OK "msg"
        = Status.mkDefault :=
  (c3_construct_set_error Code.OK "msg"
    (Status.make Code.CANCELLED "old")).1 rfl

/-- Helper: structural equality unfolded to a propositional characterization. -/
theorem status_beq_iff (a b : Status) :
    Status.beq a b = true
      ↔ a.error_code = b.error_code ∧ a.error_message = b.error_message := by
  simp [Status.beq, Bool.and_eq_true, beq_iff_eq]

/-- Helper: statuses with different codes compare unequal. -/
theorem status_beq_eq_false (a b : Status) (h : a.error_code ≠ b.error_code) :
    Status.beq a b = false := by
  cases hb : Status.beq a b
  · rfl
  · exact absurd ((status_beq_iff a b).mp hb).1 h

/-- Helper: the error code produced by `(code, message)` construction. -/
theorem make_error_code (c : Code) (m : String) :
    (Status.make c m).error_code = if c = Code.OK then Code.OK else c := by
  unfold Status.make
  split <;> rfl

/-- C4: `a == b` holds iff the error codes and the error messages agree; in
particular equal non-OK codes with different messages compare unequal, and
equal messages with different codes compare unequal (constructed statuses
are OK-normalized by `Status.make`). -/
theorem c4_equality (a b : Status) :
    (Status.beq a b = true
      ↔ a.error_code = b.error_code ∧ a.error_message = b.error_message)
    ∧ (∀ (c : Code) (m₁ m₂ : String), c ≠ Code.OK → m₁ ≠ m₂ →
        Status.beq (Status.make c m₁) (Status.make c m₂) = false)
    ∧ (∀ (c₁ c₂ : Code) (m : String), c₁ ≠ c₂ →
        Status.beq (Status.make c₁ m) (Status.make c₂ m) = false) := by
  refine ⟨status_beq_iff a b, ?_, ?_⟩
  · intro c m₁ m₂ hc hm
    unfold Status.make Status.beq
    simp only [if_neg hc]
    simp [hm]
  · intro c₁ c₂ m hc
    apply status_beq_eq_false
    rw [make_error_code, make_error_code]
    by_cases h₁ : c₁ = Code.OK
    · by_cases h₂ : c₂ = Code.OK
      · exact absurd (h₁.trans h₂.symm) hc
      · rw [if_pos h₁, if_neg h₂]
        exact fun h => h₂ h.symm
    · by_cases h₂ : c₂ = Code.OK
      · rw [if_neg h₁, if_pos h₂]
        exact h₁
      · rw [if_neg h₁, if_neg h₂]
        exact hc

/-- Witness for C4 at concrete inputs. -/
theorem c4_equality_witness :
    Status.beq (Status.make Code.UNKNOWN "x") (Status.make Code.UNKNOWN "y")
      = false
    ∧ Status.beq (Status.make Code.UNKNOWN "x") (Status.make Code.CANCELLED "x")
      = false :=
  ⟨(c4_equality (Status.make Code.UNKNOWN "x")
      (Status.make Code.UNKNOWN "y")).2.1 Code.UNKNOWN "x" "y"
      (by decide) (by decide),
   (c4_equality (Status.make Code.UNKNOWN "x")
      (Status.make Code.CANCELLED "x")).2.2 Code.UNKNOWN Code.CANCELLED "x"
      (by decide)⟩

/-- C5: `ToString()` returns exactly `"OK"` when `ok()`, and otherwise the
code's textual rendering, a single colon, and the raw stored message, with
nothing else around them. -/
theorem c5_to_string (s : Status) :
    (s.ok = true → s.ToString = "OK")
    ∧ (s.ok = false →
        s.ToString = s.error_code.text ++ ":" ++ s.error_message) := by
  unfold Status.ToString
  constructor
  · intro h; simp [h]
  · intro h; simp [h]

/-- Witness for C5 at concrete inputs. -/
theorem c5_to_string_witness :
    (Status.make Code.CANCELLED "message").ToString
      = Code.CANCELLED.text ++ ":" ++ "message" :=
  ((c5_to_string (Status.make Code.CANCELLED "message")).2 (by decide)).trans
    (by decide)

/-- C6: `a.Matches(b)` is true iff the error codes are equal, and the
messages of both sides have no effect on the result. -/
theorem c6_matches (a b : Status) :
    (a.Matches b = true ↔ a.error_code = b.error_code)
    ∧ (∀ m₁ m₂ : String,
        (Status.mk a.error_code m₁).Matches (Status.mk b.error_code m₂)
          = a.Matches b) := by
  constructor
  · simp [Status.Matches, beq_iff_eq]
  · intro m₁ m₂; rfl

/-- C7: after `a.Swap(&b)` the first component holds exactly `b`'s prior
code and message, the second holds exactly `a`'s, and nothing else changes:
the result pair is exactly `(b, a)`. -/
theorem c7_swap (a b : Status) :
    (a.Swap b).1.error_code = b.error_code
    ∧ (a.Swap b).1.error_message = b.error_message
    ∧ (a.Swap b).2.error_code = a.error_code
    ∧ (a.Swap b).2.error_message = a.error_message
    ∧ a.Swap b = (b, a) := by
  refine ⟨rfl, rfl, rfl, rfl, ?_⟩
  unfold Status.Swap
  rfl

/-- C8: `Clear()` produces exactly the state of `SetError(OK, "")`, namely
the default-constructed OK state with an empty message, from any prior
state. -/
theorem c8_clear (s : Status) :
    s.Clear = s.SetError Code.OK "" ∧ s.Clear = Status.mkDefault := by
  constructor
  · simp [Status.Clear, Status.SetError]
  · rfl

/-- C9: `CHECK_OK(s)` takes no action when `s.ok()`; when `s` is not OK it
terminates the process with a diagnostic that contains `s`'s stored message
and any caller-supplied extra context appended to the check. -/
theorem c9_check_ok (s : Status) (extra : String) :
    (s.ok = true → CHECK_OK s extra = none)
    ∧ (s.ok = false → ∃ d, CHECK_OK s extra = some d
        ∧ (∃ l r, d.data = l ++ s.error_message.data ++ r)
        ∧ (∃ l, d.data = l ++ extra.data)) := by
  constructor
  · intro h; simp [CHECK_OK, h]
  · intro h
    refine ⟨s.ToString ++ extra, by simp [CHECK_OK, h], ?_, ?_⟩
    · refine ⟨(s.error_code.text ++ ":").data, extra.data, ?_⟩
      show (s.ToString ++ extra).data = _
      unfold Status.ToString
      rw [if_neg (by simp [h])]
      simp [String.data_append, List.append_assoc]
    · exact ⟨s.ToString.data, (String.data_append s.ToString extra)⟩

/-- Witness for C9 at concrete inputs. -/
theorem c9_check_ok_witness :
    ∃ d, CHECK_OK (Status.make Code.UNKNOWN "Status Unknown") "Foo1234" = some d
    ∧ (∃ l r, d.data
        = l ++ (Status.make Code.UNKNOWN "Status Unknown").error_message.data ++ r)
    ∧ (∃ l, d.data = l ++ "Foo1234".data) :=
  (c9_check_ok (Status.make Code.UNKNOWN "Status Unknown") "Foo1234").2
    (by decide)

/-- C10: `Matches` is coarser than equality: `a == b` implies
`a.Matches(b)`; in particular `Matches` is reflexive, and any copy of `s`
(an exact duplicate) Matches `s`. -/
theorem c10_matches_coarser (a b : Status) :
    (Status.beq a b = true → a.Matches b = true)
    ∧ a.Matches a = true := by
  constructor
  · intro h
    simp [Status.beq, Bool.and_eq_true, beq_iff_eq] at h
    simp [Status.Matches, beq_iff_eq, h.1]
  · simp [Status.Matches]

/-- Witness for C10 at concrete inputs. -/
theorem c10_matches_coarser_witness :
    (Status.make Code.UNKNOWN "message").Matches
      (Status.make Code.UNKNOWN "message") = true :=
  (c10_matches_coarser (Status.make Code.UNKNOWN "message")
    (Status.make Code.UNKNOWN "message")).1 (by decide)

end Media
